import Mathlib

/-!
Shallow embedding of the QUIC frame parser (`internal/wire/frame_parser.go`)
of this repository, together with the supporting pieces of the `wire`,
`protocol`, `qerr` and `quicvarint` packages that the parser calls into.
The parser file itself is in the repository source; the supporting pieces
are not, so they are modelled from the specification (each such definition
says so in its doc comment).

Byte regions are modelled as `List Nat`, each element a byte value below 256.
Machine integers are modelled as `Nat` (all wire values are unsigned and far
below any overflow boundary on the inputs considered here).
-/

/-- Modelled from the spec: the encryption/connection phase
(`protocol.EncryptionLevel`), "one of a small fixed set (initial, handshake,
zero-round-trip, one-round-trip/application)". -/
inductive EncryptionLevel
  | initial
  | handshake
  | zeroRTT
  | oneRTT
deriving DecidableEq, Repr

/-- Modelled from the spec: the protocol version tag (`protocol.Version`),
passed into every decode call and otherwise opaque at this layer. -/
abbrev Version := Nat

/-- Modelled from the spec: `protocol.Version1`. -/
def Version1 : Version := 1

/-- Modelled from the spec: `protocol.DefaultAckDelayExponent`, the
"protocol-fixed value" used to scale the ACK delay field at every phase
other than 1-RTT. -/
def DefaultAckDelayExponent : Nat := 3

/-- Modelled from the spec: the numeric "frame encoding error" transport
error code (`qerr.FrameEncodingError`). -/
def FrameEncodingError : Nat := 0x7

/-- Error messages are modelled symbolically rather than as formatted
strings; each constructor stands for one distinct message produced by the
code. -/
inductive ErrMsg
  | eofMsg
  | unexpectedEOFMsg
  /-- the `ParseType` message "unknown frame type: %d" (carries the code). -/
  | unknownFrameTypeCode (typ : Nat)
  /-- the `ParseType` message "%d not allowed at encryption level %s". -/
  | typeNotAllowed (typ : Nat) (encLevel : EncryptionLevel)
  /-- the message of the sentinel `errUnknownFrameType`: "unknown frame type". -/
  | unknownFrameTypeMsg
  /-- the `ParseFrame` message "%s not allowed at encryption level %s"
  (carries the decoded frame's type name, not the wire code). -/
  | frameNotAllowed (name : String) (encLevel : EncryptionLevel)
  | invalidFirstAckRangeMsg
  | invalidAckRangeMsg
deriving DecidableEq, Repr

/-- Modelled from the spec: `qerr.TransportError`, "a structured error
carrying a numeric frame-encoding-error code and, where available, the
offending frame's raw type code". The `frameType` field is 0 (the Go zero
value) when the code never sets it. -/
structure TransportError where
  errorCode : Nat
  frameType : Nat
  errorMessage : ErrMsg
deriving DecidableEq, Repr

/-- The error values that flow through the parser: `io.EOF`,
`io.ErrUnexpectedEOF`, the sentinel `errUnknownFrameType` (from the source
file), structured `qerr.TransportError` values, the plain `fmt.Errorf`
phase-violation error built in `ParseFrame`, and the ACK decoder's
arithmetic errors. -/
inductive Err
  | eof
  | unexpectedEOF
  | unknownFrameType
  | invalidFirstAckRange
  | invalidAckRange
  | transport (te : TransportError)
  | notAllowed (name : String) (encLevel : EncryptionLevel)
deriving DecidableEq, Repr

/-- The message an error renders to (Go `err.Error()`), used when
`parseNext` and `ParseType` wrap an inner error into a `TransportError`. -/
def Err.message : Err → ErrMsg
  | .eof => .eofMsg
  | .unexpectedEOF => .unexpectedEOFMsg
  | .unknownFrameType => .unknownFrameTypeMsg
  | .invalidFirstAckRange => .invalidFirstAckRangeMsg
  | .invalidAckRange => .invalidAckRangeMsg
  | .transport te => te.errorMessage
  | .notAllowed n lvl => .frameNotAllowed n lvl

/-- From the source (`frame_parser.go`): `replaceUnexpectedEOF` maps
`io.ErrUnexpectedEOF` to `io.EOF` and leaves every other error alone. -/
def replaceUnexpectedEOF (e : Err) : Err :=
  if e = .unexpectedEOF then .eof else e

/-- Modelled from the spec: the length in bytes of a variable-length
integer encoding, "1/2/4/8-byte encodings selected by the top two bits of
the first byte". -/
def varintLen (b0 : Nat) : Nat := 2 ^ (b0 % 256 / 64)

/-- Modelled from the spec: `quicvarint.Parse`. Decodes the next integer
from a byte region, returning (value, bytes consumed, error); signals
end-of-input on an empty region and truncation when the region is shorter
than the encoding announced by the first byte. -/
def varintParse (b : List Nat) : Nat × Nat × Option Err :=
  match b with
  | [] => (0, 0, some .eof)
  | b0 :: rest =>
    if (b0 :: rest).length < varintLen b0 then (0, 1, some .unexpectedEOF)
    else
      (((b0 % 256 % 64) :: (rest.take (varintLen b0 - 1)).map (· % 256)).foldl
          (fun a x => a * 256 + x) 0,
        varintLen b0, none)

theorem varintParse_ok {b : List Nat} {t l : Nat}
    (h : varintParse b = (t, l, none)) : 1 ≤ l ∧ l ≤ b.length := by
  match b with
  | [] => simp [varintParse] at h
  | b0 :: rest =>
    rw [varintParse] at h
    split at h
    · simp at h
    · rename_i hlen
      injection h with h1 h2
      injection h2 with h2 h3
      subst h2
      exact ⟨Nat.one_le_two_pow, Nat.le_of_not_lt hlen⟩

/-- Helper fact: a first byte below 64 is a complete one-byte varint
encoding of itself, whatever follows. -/
theorem varintParse_single (b0 : Nat) (rest : List Nat) (h : b0 < 64) :
    varintParse (b0 :: rest) = (b0, 1, none) := by
  have h256 : b0 % 256 = b0 := Nat.mod_eq_of_lt (by omega)
  have hdiv : varintLen b0 = 1 := by
    rw [varintLen, h256, Nat.div_eq_of_lt h, pow_zero]
  have h64 : b0 % 256 % 64 = b0 := by rw [h256]; exact Nat.mod_eq_of_lt h
  simp [varintParse, hdiv, h64, Nat.lt_one_iff]

/-- Modelled from the spec: wire type codes (`wire.FrameType` constants).
A frame type code is a value in the protocol's varint domain. -/
abbrev FrameType := Nat

/-- Modelled from the spec (frame-type table). -/
def PingFrameType : FrameType := 0x1

/-- Modelled from the spec (frame-type table). -/
def AckFrameType : FrameType := 0x2

/-- Modelled from the spec (frame-type table). -/
def AckECNFrameType : FrameType := 0x3

/-- Modelled from the spec (frame-type table). -/
def ResetStreamFrameType : FrameType := 0x4

/-- Modelled from the spec (frame-type table). -/
def StopSendingFrameType : FrameType := 0x5

/-- Modelled from the spec (frame-type table). -/
def CryptoFrameType : FrameType := 0x6

/-- Modelled from the spec (frame-type table). -/
def NewTokenFrameType : FrameType := 0x7

/-- Modelled from the spec (frame-type table). -/
def MaxDataFrameType : FrameType := 0x10

/-- Modelled from the spec (frame-type table). -/
def MaxStreamDataFrameType : FrameType := 0x11

/-- Modelled from the spec (frame-type table). -/
def BidiMaxStreamsFrameType : FrameType := 0x12

/-- Modelled from the spec (frame-type table). -/
def UniMaxStreamsFrameType : FrameType := 0x13

/-- Modelled from the spec (frame-type table). -/
def DataBlockedFrameType : FrameType := 0x14

/-- Modelled from the spec (frame-type table). -/
def StreamDataBlockedFrameType : FrameType := 0x15

/-- Modelled from the spec (frame-type table). -/
def BidiStreamBlockedFrameType : FrameType := 0x16

/-- Modelled from the spec (frame-type table). -/
def UniStreamBlockedFrameType : FrameType := 0x17

/-- Modelled from the spec (frame-type table). -/
def NewConnectionIDFrameType : FrameType := 0x18

/-- Modelled from the spec (frame-type table). -/
def RetireConnectionIDFrameType : FrameType := 0x19

/-- Modelled from the spec (frame-type table). -/
def PathChallengeFrameType : FrameType := 0x1a

/-- Modelled from the spec (frame-type table). -/
def PathResponseFrameType : FrameType := 0x1b

/-- Modelled from the spec (frame-type table). -/
def ConnectionCloseFrameType : FrameType := 0x1c

/-- Modelled from the spec (frame-type table). -/
def ApplicationCloseFrameType : FrameType := 0x1d

/-- Modelled from the spec (frame-type table). -/
def HandshakeDoneFrameType : FrameType := 0x1e

/-- Modelled from the spec (frame-type table): the reset-stream-at
extension's code, `0x24`. -/
def ResetStreamAtFrameType : FrameType := 0x24

/-- Modelled from the spec (frame-type table): the datagram extension's
code pair `0x30`/`0x31` encoding length-present. -/
def DatagramNoLengthFrameType : FrameType := 0x30

/-- Modelled from the spec (frame-type table). -/
def DatagramWithLengthFrameType : FrameType := 0x31

/-- Modelled from the spec: `wire.NewFrameType`, the total static
classification of a wire code. The mapped codes are exactly PING `0x1`,
ACK `0x2`/`0x3`, RESET_STREAM `0x4`, STOP_SENDING `0x5`, CRYPTO `0x6`,
NEW_TOKEN `0x7`, the STREAM family `0x8`-`0xf`, the `0x10`-`0x1e` control
frames, RESET_STREAM_AT `0x24` and DATAGRAM `0x30`/`0x31` — a contiguous
run `0x1`-`0x1e` plus the three extension codes. The extension codes are
always classified; gating happens in the parser, not here. -/
def NewFrameType (typ : Nat) : Bool :=
  decide (1 ≤ typ ∧ typ ≤ 0x1e ∨ typ = 0x24 ∨ typ = 0x30 ∨ typ = 0x31)

/-- Modelled from the spec: `FrameType.IsStreamFrameType`, "a contiguous,
low-bit-encoded sub-range of codes" (`0x8`-`0xf`). -/
def IsStreamFrameType (typ : Nat) : Bool :=
  decide (0x8 ≤ typ ∧ typ ≤ 0xf)

/-- Modelled from the spec: `FrameType.isAllowedAtEncLevel`, the static
phase-admissibility table. At the initial and handshake phases only
CRYPTO, ACK, ACK-with-ECN, transport CONNECTION_CLOSE and PING are
admissible; HANDSHAKE_DONE is legal only at 1-RTT; application frames are
illegal before the handshake completes; at 1-RTT everything is allowed. -/
def isAllowedAtEncLevel (typ : FrameType) (encLevel : EncryptionLevel) : Bool :=
  match encLevel with
  | .initial | .handshake =>
    decide (typ = CryptoFrameType ∨ typ = AckFrameType ∨ typ = AckECNFrameType ∨
      typ = ConnectionCloseFrameType ∨ typ = PingFrameType)
  | .zeroRTT =>
    !decide (typ = CryptoFrameType ∨ typ = AckFrameType ∨ typ = AckECNFrameType ∨
      typ = ConnectionCloseFrameType ∨ typ = NewTokenFrameType ∨
      typ = PathResponseFrameType ∨ typ = RetireConnectionIDFrameType ∨
      typ = HandshakeDoneFrameType)
  | .oneRTT => true

/-- Modelled from the spec: `wire.AckFrame`, the parser's single reusable
scratch value. `delayTime` is in nanoseconds (Go `time.Duration`);
`ackRanges` is the decoded list of (smallest, largest) pairs in wire
(descending) order. -/
structure AckFrame where
  ackRanges : List (Nat × Nat)
  delayTime : Nat
  ect0 : Nat
  ect1 : Nat
  ecnce : Nat
deriving DecidableEq, Repr

/-- Modelled from the spec: `AckFrame.Reset` clears every field of the
scratch value ("reset (fields cleared) at the start of each ACK decode"). -/
def AckFrame.Reset (_f : AckFrame) : AckFrame :=
  { ackRanges := [], delayTime := 0, ect0 := 0, ect1 := 0, ecnce := 0 }

/-- Modelled from the spec: the tagged union over frame kinds
(`wire.Frame`). Payload-carrying kinds hold their bytes as lists. -/
inductive Frame
  | ping
  | ack (f : AckFrame)
  | resetStream (streamID errorCode finalSize : Nat) (reliableSize : Option Nat)
  | stopSending (streamID errorCode : Nat)
  | crypto (offset : Nat) (data : List Nat)
  | newToken (token : List Nat)
  | maxData (maximumData : Nat)
  | maxStreamData (streamID maximumStreamData : Nat)
  | maxStreams (bidi : Bool) (maxStreamNum : Nat)
  | dataBlocked (maximumData : Nat)
  | streamDataBlocked (streamID maximumStreamData : Nat)
  | streamsBlocked (bidi : Bool) (streamLimit : Nat)
  | newConnectionID (sequenceNumber retirePriorTo : Nat) (connectionID token : List Nat)
  | retireConnectionID (sequenceNumber : Nat)
  | pathChallenge (data : List Nat)
  | pathResponse (data : List Nat)
  | connectionClose (isApplicationError : Bool) (errorCode triggerFrameType : Nat)
      (reasonPhrase : List Nat)
  | handshakeDone
  | stream (streamID offset : Nat) (fin dataLenPresent : Bool) (data : List Nat)
  | datagram (dataLenPresent : Bool) (data : List Nat)
deriving DecidableEq, Repr

/-- The Go type name of a frame value, as produced by
`reflect.TypeOf(frame).Elem().Name()` in `ParseFrame`'s phase check. -/
def Frame.typeName : Frame → String
  | .ping => "PingFrame"
  | .ack _ => "AckFrame"
  | .resetStream .. => "ResetStreamFrame"
  | .stopSending .. => "StopSendingFrame"
  | .crypto .. => "CryptoFrame"
  | .newToken _ => "NewTokenFrame"
  | .maxData _ => "MaxDataFrame"
  | .maxStreamData .. => "MaxStreamDataFrame"
  | .maxStreams .. => "MaxStreamsFrame"
  | .dataBlocked _ => "DataBlockedFrame"
  | .streamDataBlocked .. => "StreamDataBlockedFrame"
  | .streamsBlocked .. => "StreamsBlockedFrame"
  | .newConnectionID .. => "NewConnectionIDFrame"
  | .retireConnectionID _ => "RetireConnectionIDFrame"
  | .pathChallenge _ => "PathChallengeFrame"
  | .pathResponse _ => "PathResponseFrame"
  | .connectionClose .. => "ConnectionCloseFrame"
  | .handshakeDone => "HandshakeDoneFrame"
  | .stream .. => "StreamFrame"
  | .datagram .. => "DatagramFrame"

/-- Type name of an optional frame; `ParseFrame` only evaluates it on a
successfully decoded (present) frame. -/
def optionTypeName : Option Frame → String
  | some fr => fr.typeName
  | none => ""

/-- Reads one varint, mapping truncation to `io.EOF` the way the decode
routines do through `replaceUnexpectedEOF`. Returns (value, length). -/
def readVarint (b : List Nat) : Except Err (Nat × Nat) :=
  match varintParse b with
  | (v, l, none) => .ok (v, l)
  | (_, _, some e) => .error (replaceUnexpectedEOF e)

/-- Reads exactly `n` raw bytes, or nothing if the region is shorter. -/
def readBytes (b : List Nat) (n : Nat) : Option (List Nat) :=
  if b.length < n then none else some (b.take n)

/-- Modelled from the spec: `parseResetStreamFrame` decodes a stream
identifier, an application error code and a final size; with the
reset-stream-at flag it additionally decodes the reliable-size bound. -/
def parseResetStreamFrame (b : List Nat) (isResetStreamAt : Bool) (_v : Version) :
    Option Frame × Nat × Option Err :=
  match readVarint b with
  | .error e => (none, 0, some e)
  | .ok (sid, l1) =>
    match readVarint (b.drop l1) with
    | .error e => (none, 0, some e)
    | .ok (ec, l2) =>
      match readVarint (b.drop (l1 + l2)) with
      | .error e => (none, 0, some e)
      | .ok (fs, l3) =>
        if isResetStreamAt then
          match readVarint (b.drop (l1 + l2 + l3)) with
          | .error e => (none, 0, some e)
          | .ok (rs, l4) =>
            (some (.resetStream sid ec fs (some rs)), l1 + l2 + l3 + l4, none)
        else (some (.resetStream sid ec fs none), l1 + l2 + l3, none)

/-- Modelled from the spec: `parseStopSendingFrame` (stream identifier and
application error code). -/
def parseStopSendingFrame (b : List Nat) (_v : Version) :
    Option Frame × Nat × Option Err :=
  match readVarint b with
  | .error e => (none, 0, some e)
  | .ok (sid, l1) =>
    match readVarint (b.drop l1) with
    | .error e => (none, 0, some e)
    | .ok (ec, l2) => (some (.stopSending sid ec), l1 + l2, none)

/-- Modelled from the spec: `parseCryptoFrame` (offset, explicit length,
then that many payload bytes). -/
def parseCryptoFrame (b : List Nat) (_v : Version) :
    Option Frame × Nat × Option Err :=
  match readVarint b with
  | .error e => (none, 0, some e)
  | .ok (off, l1) =>
    match readVarint (b.drop l1) with
    | .error e => (none, 0, some e)
    | .ok (dlen, l2) =>
      match readBytes (b.drop (l1 + l2)) dlen with
      | none => (none, 0, some .eof)
      | some d => (some (.crypto off d), l1 + l2 + dlen, none)

/-- Modelled from the spec: `parseNewTokenFrame` (token length then token
bytes). -/
def parseNewTokenFrame (b : List Nat) (_v : Version) :
    Option Frame × Nat × Option Err :=
  match readVarint b with
  | .error e => (none, 0, some e)
  | .ok (tlen, l1) =>
    match readBytes (b.drop l1) tlen with
    | none => (none, 0, some .eof)
    | some t => (some (.newToken t), l1 + tlen, none)

/-- Modelled from the spec: `parseMaxDataFrame` (a single maximum-data
varint). -/
def parseMaxDataFrame (b : List Nat) (_v : Version) :
    Option Frame × Nat × Option Err :=
  match readVarint b with
  | .error e => (none, 0, some e)
  | .ok (md, l1) => (some (.maxData md), l1, none)

/-- Modelled from the spec: `parseMaxStreamDataFrame` (stream identifier
and maximum stream data). -/
def parseMaxStreamDataFrame (b : List Nat) (_v : Version) :
    Option Frame × Nat × Option Err :=
  match readVarint b with
  | .error e => (none, 0, some e)
  | .ok (sid, l1) =>
    match readVarint (b.drop l1) with
    | .error e => (none, 0, some e)
    | .ok (md, l2) => (some (.maxStreamData sid md), l1 + l2, none)

/-- Modelled from the spec: `parseMaxStreamsFrame`; directionality is
carried by which of the two adjacent codes was read. -/
def parseMaxStreamsFrame (b : List Nat) (frameType : FrameType) (_v : Version) :
    Option Frame × Nat × Option Err :=
  match readVarint b with
  | .error e => (none, 0, some e)
  | .ok (n, l1) =>
    (some (.maxStreams (decide (frameType = BidiMaxStreamsFrameType)) n), l1, none)

/-- Modelled from the spec: `parseDataBlockedFrame`. -/
def parseDataBlockedFrame (b : List Nat) (_v : Version) :
    Option Frame × Nat × Option Err :=
  match readVarint b with
  | .error e => (none, 0, some e)
  | .ok (md, l1) => (some (.dataBlocked md), l1, none)

/-- Modelled from the spec: `parseStreamDataBlockedFrame`. -/
def parseStreamDataBlockedFrame (b : List Nat) (_v : Version) :
    Option Frame × Nat × Option Err :=
  match readVarint b with
  | .error e => (none, 0, some e)
  | .ok (sid, l1) =>
    match readVarint (b.drop l1) with
    | .error e => (none, 0, some e)
    | .ok (md, l2) => (some (.streamDataBlocked sid md), l1 + l2, none)

/-- Modelled from the spec: `parseStreamsBlockedFrame`; directionality is
carried by the code. -/
def parseStreamsBlockedFrame (b : List Nat) (frameType : FrameType) (_v : Version) :
    Option Frame × Nat × Option Err :=
  match readVarint b with
  | .error e => (none, 0, some e)
  | .ok (n, l1) =>
    (some (.streamsBlocked (decide (frameType = BidiStreamBlockedFrameType)) n), l1, none)

/-- Modelled from the spec: `parseNewConnectionIDFrame` (sequence number,
retire-prior-to, a one-byte connection-id length, the connection id, and a
16-byte stateless reset token). -/
def parseNewConnectionIDFrame (b : List Nat) (_v : Version) :
    Option Frame × Nat × Option Err :=
  match readVarint b with
  | .error e => (none, 0, some e)
  | .ok (seq, l1) =>
    match readVarint (b.drop l1) with
    | .error e => (none, 0, some e)
    | .ok (_retire, l2) =>
      match b.drop (l1 + l2) with
      | [] => (none, 0, some .eof)
      | cidLen :: _ =>
        match readBytes (b.drop (l1 + l2 + 1)) cidLen with
        | none => (none, 0, some .eof)
        | some cid =>
          match readBytes (b.drop (l1 + l2 + 1 + cidLen)) 16 with
          | none => (none, 0, some .eof)
          | some tok =>
            (some (.newConnectionID seq _retire cid tok), l1 + l2 + 1 + cidLen + 16, none)

/-- Modelled from the spec: `parseRetireConnectionIDFrame`. -/
def parseRetireConnectionIDFrame (b : List Nat) (_v : Version) :
    Option Frame × Nat × Option Err :=
  match readVarint b with
  | .error e => (none, 0, some e)
  | .ok (seq, l1) => (some (.retireConnectionID seq), l1, none)

/-- Modelled from the spec: `parsePathChallengeFrame` (8 opaque bytes). -/
def parsePathChallengeFrame (b : List Nat) (_v : Version) :
    Option Frame × Nat × Option Err :=
  match readBytes b 8 with
  | none => (none, 0, some .eof)
  | some d => (some (.pathChallenge d), 8, none)

/-- Modelled from the spec: `parsePathResponseFrame` (8 opaque bytes). -/
def parsePathResponseFrame (b : List Nat) (_v : Version) :
    Option Frame × Nat × Option Err :=
  match readBytes b 8 with
  | none => (none, 0, some .eof)
  | some d => (some (.pathResponse d), 8, none)

/-- Modelled from the spec: `parseConnectionCloseFrame` (error code, a
triggering frame-type code only for the transport variant, then reason
phrase length and bytes); the application flag is carried by the code. -/
def parseConnectionCloseFrame (b : List Nat) (frameType : FrameType) (_v : Version) :
    Option Frame × Nat × Option Err :=
  match readVarint b with
  | .error e => (none, 0, some e)
  | .ok (ec, l1) =>
    match (if frameType = ConnectionCloseFrameType then readVarint (b.drop l1)
           else .ok (0, 0)) with
    | .error e => (none, 0, some e)
    | .ok (ft, l2) =>
      match readVarint (b.drop (l1 + l2)) with
      | .error e => (none, 0, some e)
      | .ok (rlen, l3) =>
        match readBytes (b.drop (l1 + l2 + l3)) rlen with
        | none => (none, 0, some .eof)
        | some r =>
          (some (.connectionClose (decide (frameType = ApplicationCloseFrameType)) ec ft r),
            l1 + l2 + l3 + rlen, none)

/-- Modelled from the spec: `wire.ParseStreamFrame`. The low three bits of
the code flag presence of offset, explicit length and fin; with no
explicit length the payload extends to the end of the region. -/
def ParseStreamFrame (b : List Nat) (typ : FrameType) (_v : Version) :
    Option Frame × Nat × Option Err :=
  match readVarint b with
  | .error e => (none, 0, some e)
  | .ok (sid, l1) =>
    match (if typ &&& 0x4 ≠ 0 then readVarint (b.drop l1) else .ok (0, 0)) with
    | .error e => (none, 0, some e)
    | .ok (off, l2) =>
      if typ &&& 0x2 ≠ 0 then
        match readVarint (b.drop (l1 + l2)) with
        | .error e => (none, 0, some e)
        | .ok (dlen, l3) =>
          match readBytes (b.drop (l1 + l2 + l3)) dlen with
          | none => (none, 0, some .eof)
          | some d =>
            (some (.stream sid off (decide (typ &&& 0x1 ≠ 0)) true d),
              l1 + l2 + l3 + dlen, none)
      else
        (some (.stream sid off (decide (typ &&& 0x1 ≠ 0)) false (b.drop (l1 + l2))),
          b.length, none)

/-- Modelled from the spec: the package-level datagram decode routine
(`wire.ParseDatagramFrame`); the length-present bit is the low bit of the
code pair. -/
def parseDatagramFrameRaw (b : List Nat) (typ : FrameType) (_v : Version) :
    Option Frame × Nat × Option Err :=
  if typ &&& 0x1 ≠ 0 then
    match readVarint b with
    | .error e => (none, 0, some e)
    | .ok (dlen, l1) =>
      match readBytes (b.drop l1) dlen with
      | none => (none, 0, some .eof)
      | some d => (some (.datagram true d), l1 + dlen, none)
  else (some (.datagram false b), b.length, none)

/-- Modelled from the spec: the inner loop of the package-level ACK decode
routine — `n` further (gap, range-length) pairs reconstructed into
descending (smallest, largest) pairs, appended to the scratch value's
range list. Returns the mutated scratch, bytes consumed, and any error. -/
def parseAckRangesLoop (f : AckFrame) (smallest n : Nat) (b : List Nat) :
    AckFrame × Nat × Option Err :=
  match n with
  | 0 => (f, 0, none)
  | n + 1 =>
    match readVarint b with
    | .error e => (f, 0, some e)
    | .ok (gap, l1) =>
      match readVarint (b.drop l1) with
      | .error e => (f, 0, some e)
      | .ok (len, l2) =>
        if smallest < gap + 2 then (f, 0, some .invalidAckRange)
        else
          let largest := smallest - gap - 2
          if largest < len then (f, 0, some .invalidAckRange)
          else
            let f := { f with ackRanges := f.ackRanges ++ [(largest - len, largest)] }
            match parseAckRangesLoop f (largest - len) n (b.drop (l1 + l2)) with
            | (f, lr, e) => (f, l1 + l2 + lr, e)

/-- Modelled from the spec: the package-level ACK decode routine
(`wire.ParseAckFrame`), which decodes into the caller-supplied scratch
value, mutating it in place: largest-acked, a delay scaled by
2^ack-delay-exponent (microsecond units, stored in nanoseconds), an
ack-range count, the first range, that many further (gap, length) pairs,
and ECN counts only for the ECN variant. Returns the mutated scratch,
bytes consumed, and any error; on error the scratch keeps whatever fields
were already written. -/
def parseAckFrameInto (f : AckFrame) (b : List Nat) (typ : FrameType)
    (ackDelayExponent : Nat) (_v : Version) : AckFrame × Nat × Option Err :=
  match readVarint b with
  | .error e => (f, 0, some e)
  | .ok (la, l1) =>
    match readVarint (b.drop l1) with
    | .error e => (f, 0, some e)
    | .ok (delay, l2) =>
      let f := { f with delayTime := delay * 2 ^ ackDelayExponent * 1000 }
      match readVarint (b.drop (l1 + l2)) with
      | .error e => (f, 0, some e)
      | .ok (numRanges, l3) =>
        match readVarint (b.drop (l1 + l2 + l3)) with
        | .error e => (f, 0, some e)
        | .ok (firstRange, l4) =>
          if la < firstRange then (f, 0, some .invalidFirstAckRange)
          else
            let f := { f with ackRanges := [(la - firstRange, la)] }
            match parseAckRangesLoop f (la - firstRange) numRanges
                (b.drop (l1 + l2 + l3 + l4)) with
            | (f, lr, some e) => (f, 0, some e)
            | (f, lr, none) =>
              if typ = AckECNFrameType then
                match readVarint (b.drop (l1 + l2 + l3 + l4 + lr)) with
                | .error e => (f, 0, some e)
                | .ok (e0, m1) =>
                  match readVarint (b.drop (l1 + l2 + l3 + l4 + lr + m1)) with
                  | .error e => (f, 0, some e)
                  | .ok (e1, m2) =>
                    match readVarint (b.drop (l1 + l2 + l3 + l4 + lr + m1 + m2)) with
                    | .error e => (f, 0, some e)
                    | .ok (ce, m3) =>
                      ({ f with ect0 := e0, ect1 := e1, ecnce := ce },
                        l1 + l2 + l3 + l4 + lr + m1 + m2 + m3, none)
              else (f, l1 + l2 + l3 + l4 + lr, none)

/-- From the source: the `FrameParser` struct — the ack-delay exponent,
the two extension toggles, and the single reusable ACK scratch value. -/
structure FrameParser where
  ackDelayExponent : Nat
  supportsDatagrams : Bool
  supportsResetStreamAt : Bool
  ackFrame : AckFrame
deriving DecidableEq, Repr

/-- From the source: `NewFrameParser` sets the two toggles and allocates a
fresh zero-valued ACK scratch; `ackDelayExponent` is not mentioned in the
struct literal and therefore keeps Go's zero value, 0. -/
def NewFrameParser (supportsDatagrams supportsResetStreamAt : Bool) : FrameParser :=
  { ackDelayExponent := 0
    supportsDatagrams := supportsDatagrams
    supportsResetStreamAt := supportsResetStreamAt
    ackFrame := { ackRanges := [], delayTime := 0, ect0 := 0, ect1 := 0, ecnce := 0 } }

/-- From the source: `SetAckDelayExponent`. -/
def FrameParser.SetAckDelayExponent (p : FrameParser) (exp : Nat) : FrameParser :=
  { p with ackDelayExponent := exp }

/-- From the source: `ParseType` — skips filler (type code 0) entries while
counting their bytes, then decodes and classifies the next code, checks
phase admissibility, and returns without touching the frame body. An
exhausted region yields `io.EOF` with the bytes parsed so far. -/
def FrameParser.ParseType (p : FrameParser) (b : List Nat) (encLevel : EncryptionLevel) :
    FrameType × Nat × Option Err :=
  if hbe : b = [] then (0, 0, some .eof)
  else
    match hv : varintParse b with
    | (_, l, some e) =>
      (0, l, some (.transport ⟨FrameEncodingError, 0, e.message⟩))
    | (typ, l, none) =>
      if typ = 0 then
        let r := p.ParseType (b.drop l) encLevel
        (r.1, l + r.2.1, r.2.2)
      else if NewFrameType typ then
        if isAllowedAtEncLevel typ encLevel then (typ, l, none)
        else (0, l, some (.transport ⟨FrameEncodingError, 0, .typeNotAllowed typ encLevel⟩))
      else (0, l, some (.transport ⟨FrameEncodingError, 0, .unknownFrameTypeCode typ⟩))
termination_by b.length
decreasing_by
  have := varintParse_ok hv
  simp only [List.length_drop]
  cases b with
  | nil => exact absurd rfl hbe
  | cons x xs => simp at this ⊢; omega

/-- From the source: `ParseLessCommonFrame` — decodes every kind except
STREAM, ACK and DATAGRAM; the RESET_STREAM_AT arm is gated on the
extension toggle and every unhandled kind falls to `errUnknownFrameType`
with no frame and zero bytes consumed. -/
def FrameParser.ParseLessCommonFrame (p : FrameParser) (frameType : FrameType)
    (data : List Nat) (v : Version) : Option Frame × Nat × Option Err :=
  if frameType = PingFrameType then (some .ping, 0, none)
  else if frameType = ResetStreamFrameType then parseResetStreamFrame data false v
  else if frameType = StopSendingFrameType then parseStopSendingFrame data v
  else if frameType = CryptoFrameType then parseCryptoFrame data v
  else if frameType = NewTokenFrameType then parseNewTokenFrame data v
  else if frameType = MaxDataFrameType then parseMaxDataFrame data v
  else if frameType = MaxStreamDataFrameType then parseMaxStreamDataFrame data v
  else if frameType = BidiMaxStreamsFrameType ∨ frameType = UniMaxStreamsFrameType then
    parseMaxStreamsFrame data frameType v
  else if frameType = DataBlockedFrameType then parseDataBlockedFrame data v
  else if frameType = StreamDataBlockedFrameType then parseStreamDataBlockedFrame data v
  else if frameType = BidiStreamBlockedFrameType ∨ frameType = UniStreamBlockedFrameType then
    parseStreamsBlockedFrame data frameType v
  else if frameType = NewConnectionIDFrameType then parseNewConnectionIDFrame data v
  else if frameType = RetireConnectionIDFrameType then parseRetireConnectionIDFrame data v
  else if frameType = PathChallengeFrameType then parsePathChallengeFrame data v
  else if frameType = PathResponseFrameType then parsePathResponseFrame data v
  else if frameType = ConnectionCloseFrameType ∨ frameType = ApplicationCloseFrameType then
    parseConnectionCloseFrame data frameType v
  else if frameType = HandshakeDoneFrameType then (some .handshakeDone, 0, none)
  else if frameType = ResetStreamAtFrameType then
    if !p.supportsResetStreamAt then (none, 0, some .unknownFrameType)
    else parseResetStreamFrame data true v
  else (none, 0, some .unknownFrameType)

/-- Lifts a stateless decode result into `ParseFrame`'s stateful result
shape. -/
def toRes (p : FrameParser) (r : Option Frame × Nat × Option Err) :
    Option Frame × Nat × Option Err × FrameParser :=
  (r.1, r.2.1, r.2.2, p)

/-- From the source: `ParseFrame` — the full dispatch. The byte-truncated
stream-range test (`byte(frameTyp)&0xf8 == 0x8`) routes stream codes; the
ACK arm selects the configured ack-delay exponent only at 1-RTT, resets
the shared scratch and decodes into it; the DATAGRAM and RESET_STREAM_AT
arms are gated on the toggles; unhandled codes yield `errUnknownFrameType`.
Any decode error returns no frame and zero bytes; only after a successful
decode is phase admissibility checked, rejecting with a plain error naming
the decoded frame's Go type. -/
def FrameParser.ParseFrame (p : FrameParser) (b : List Nat) (frameTyp : FrameType)
    (encLevel : EncryptionLevel) (v : Version) :
    Option Frame × Nat × Option Err × FrameParser :=
  let step : Option Frame × Nat × Option Err × FrameParser :=
    if frameTyp % 256 &&& 0xf8 = 0x8 then toRes p (ParseStreamFrame b frameTyp v)
    else if frameTyp = PingFrameType then (some .ping, 0, none, p)
    else if frameTyp = AckFrameType ∨ frameTyp = AckECNFrameType then
      let ackDelayExponent :=
        if encLevel ≠ EncryptionLevel.oneRTT then DefaultAckDelayExponent
        else p.ackDelayExponent
      match parseAckFrameInto (p.ackFrame.Reset) b frameTyp ackDelayExponent v with
      | (af, l, e) => (some (.ack af), l, e, { p with ackFrame := af })
    else if frameTyp = ResetStreamFrameType then toRes p (parseResetStreamFrame b false v)
    else if frameTyp = StopSendingFrameType then toRes p (parseStopSendingFrame b v)
    else if frameTyp = CryptoFrameType then toRes p (parseCryptoFrame b v)
    else if frameTyp = NewTokenFrameType then toRes p (parseNewTokenFrame b v)
    else if frameTyp = MaxDataFrameType then toRes p (parseMaxDataFrame b v)
    else if frameTyp = MaxStreamDataFrameType then toRes p (parseMaxStreamDataFrame b v)
    else if frameTyp = BidiMaxStreamsFrameType ∨ frameTyp = UniMaxStreamsFrameType then
      toRes p (parseMaxStreamsFrame b frameTyp v)
    else if frameTyp = DataBlockedFrameType then toRes p (parseDataBlockedFrame b v)
    else if frameTyp = StreamDataBlockedFrameType then
      toRes p (parseStreamDataBlockedFrame b v)
    else if frameTyp = BidiStreamBlockedFrameType ∨ frameTyp = UniStreamBlockedFrameType then
      toRes p (parseStreamsBlockedFrame b frameTyp v)
    else if frameTyp = NewConnectionIDFrameType then toRes p (parseNewConnectionIDFrame b v)
    else if frameTyp = RetireConnectionIDFrameType then
      toRes p (parseRetireConnectionIDFrame b v)
    else if frameTyp = PathChallengeFrameType then toRes p (parsePathChallengeFrame b v)
    else if frameTyp = PathResponseFrameType then toRes p (parsePathResponseFrame b v)
    else if frameTyp = ConnectionCloseFrameType ∨ frameTyp = ApplicationCloseFrameType then
      toRes p (parseConnectionCloseFrame b frameTyp v)
    else if frameTyp = HandshakeDoneFrameType then (some .handshakeDone, 0, none, p)
    else if frameTyp = DatagramNoLengthFrameType ∨ frameTyp = DatagramWithLengthFrameType then
      if !p.supportsDatagrams then (none, 0, some .unknownFrameType, p)
      else toRes p (parseDatagramFrameRaw b frameTyp v)
    else if frameTyp = ResetStreamAtFrameType then
      if !p.supportsResetStreamAt then (none, 0, some .unknownFrameType, p)
      else toRes p (parseResetStreamFrame b true v)
    else (none, 0, some .unknownFrameType, p)
  match step with
  | (_, _, some e, pp) => (none, 0, some e, pp)
  | (f, l, none, pp) =>
    if !isAllowedAtEncLevel frameTyp encLevel then
      (none, l, some (.notAllowed (optionTypeName f) encLevel), pp)
    else (f, l, none, pp)

/-- From the source: the lower-case `parseNext` loop — skips filler while
counting, decodes exactly one frame through `ParseFrame`, and wraps any
error into a `TransportError` carrying the identified type code; an
exhausted region yields no frame, no error and the bytes parsed so far. -/
def FrameParser.parseNext (p : FrameParser) (b : List Nat)
    (encLevel : EncryptionLevel) (v : Version) :
    Option Frame × Nat × Option Err × FrameParser :=
  if hbe : b = [] then (none, 0, none, p)
  else
    match hv : varintParse b with
    | (_, l, some e) =>
      (none, l, some (.transport ⟨FrameEncodingError, 0, e.message⟩), p)
    | (typ, l, none) =>
      if typ = 0 then
        let r := p.parseNext (b.drop l) encLevel v
        (r.1, l + r.2.1, r.2.2.1, r.2.2.2)
      else
        match p.ParseFrame (b.drop l) typ encLevel v with
        | (_, l2, some e, pp) =>
          (none, l + l2, some (.transport ⟨FrameEncodingError, typ, e.message⟩), pp)
        | (f, l2, none, pp) => (f, l + l2, none, pp)
termination_by b.length
decreasing_by
  have := varintParse_ok hv
  simp only [List.length_drop]
  cases b with
  | nil => exact absurd rfl hbe
  | cons x xs => simp at this ⊢; omega

/-- From the source: `ParseNext` reorders `parseNext`'s result into
(bytes consumed, frame, error). -/
def FrameParser.ParseNext (p : FrameParser) (data : List Nat)
    (encLevel : EncryptionLevel) (v : Version) :
    Nat × Option Frame × Option Err × FrameParser :=
  match p.parseNext data encLevel v with
  | (f, l, e, pp) => (l, f, e, pp)

/-- From the source: the `ParseAckFrame` method — selects the configured
ack-delay exponent only at 1-RTT, resets the shared ACK scratch, decodes
into it, and returns a reference to that same scratch value together with
the bytes consumed and any error. -/
def FrameParser.ParseAckFrame (p : FrameParser) (frameType : FrameType)
    (data : List Nat) (encLevel : EncryptionLevel) (v : Version) :
    Option AckFrame × Nat × Option Err × FrameParser :=
  let ackDelayExponent :=
    if encLevel ≠ EncryptionLevel.oneRTT then DefaultAckDelayExponent
    else p.ackDelayExponent
  match parseAckFrameInto (p.ackFrame.Reset) data frameType ackDelayExponent v with
  | (af, l, e) => (some af, l, e, { p with ackFrame := af })

/-- From the source: the `ParseDatagramFrame` method — gated on the
datagram toggle, otherwise delegating to the package-level routine. -/
def FrameParser.ParseDatagramFrame (p : FrameParser) (frameType : FrameType)
    (data : List Nat) (v : Version) : Option Frame × Nat × Option Err :=
  if !p.supportsDatagrams then (none, 0, some .unknownFrameType)
  else parseDatagramFrameRaw data frameType v

/-! Helper lemmas shared by the claim theorems. -/

theorem parseNext_nil (p : FrameParser) (lvl : EncryptionLevel) (v : Version) :
    p.parseNext [] lvl v = (none, 0, none, p) := by
  unfold FrameParser.parseNext
  simp

theorem parseNext_replicate (p : FrameParser) (k : Nat) (lvl : EncryptionLevel)
    (v : Version) :
    p.parseNext (List.replicate k 0) lvl v = (none, k, none, p) := by
  induction k with
  | zero => simpa using parseNext_nil p lvl v
  | succ k ih =>
    rw [List.replicate_succ]
    unfold FrameParser.parseNext
    rw [dif_neg (List.cons_ne_nil _ _)]
    split
    · rename_i a l e heq
      rw [varintParse_single 0 _ (by omega)] at heq
      cases heq
    · rename_i typ l heq
      rw [varintParse_single 0 _ (by omega)] at heq
      injection heq with h1 h2
      injection h2 with h2 h3
      subst h1; subst h2
      simp [ih, Nat.add_comm]

theorem parseType_nil (p : FrameParser) (lvl : EncryptionLevel) :
    p.ParseType [] lvl = (0, 0, some .eof) := by
  unfold FrameParser.ParseType
  simp

theorem parseType_padding_prefix (p : FrameParser) (k : Nat) (b : List Nat)
    (lvl : EncryptionLevel) :
    p.ParseType (List.replicate k 0 ++ b) lvl =
      ((p.ParseType b lvl).1, k + (p.ParseType b lvl).2.1, (p.ParseType b lvl).2.2) := by
  induction k with
  | zero => simp
  | succ k ih =>
    rw [List.replicate_succ, List.cons_append]
    conv_lhs => rw [FrameParser.ParseType]
    rw [dif_neg (List.cons_ne_nil _ _)]
    split
    · rename_i a l e heq
      rw [varintParse_single 0 _ (by omega)] at heq
      cases heq
    · rename_i typ l heq
      rw [varintParse_single 0 _ (by omega)] at heq
      injection heq with h1 h2
      injection h2 with h2 h3
      subst h1; subst h2
      simp [ih, Prod.ext_iff]
      omega

theorem parseType_nonfiller (p : FrameParser) {b : List Nat} {typ l : Nat}
    (lvl : EncryptionLevel) (h : varintParse b = (typ, l, none)) (h0 : typ ≠ 0) :
    p.ParseType b lvl =
      (if NewFrameType typ then
        if isAllowedAtEncLevel typ lvl then (typ, l, none)
        else (0, l, some (.transport ⟨FrameEncodingError, 0, .typeNotAllowed typ lvl⟩))
      else (0, l, some (.transport ⟨FrameEncodingError, 0, .unknownFrameTypeCode typ⟩))) := by
  have hbne : b ≠ [] := by rintro rfl; simp [varintParse] at h
  unfold FrameParser.ParseType
  rw [dif_neg hbne]
  split
  · rename_i a l2 e heq
    rw [h] at heq; cases heq
  · rename_i typ2 l2 heq
    rw [h] at heq
    injection heq with h1 h2
    injection h2 with h2 h3
    subst h1; subst h2
    rw [if_neg h0]

theorem parseNext_step_err (p pp : FrameParser) {b : List Nat} {typ l : Nat}
    (lvl : EncryptionLevel) (v : Version) {fo : Option Frame} {l2 : Nat} {e : Err}
    (h : varintParse b = (typ, l, none)) (h0 : typ ≠ 0)
    (hf : p.ParseFrame (b.drop l) typ lvl v = (fo, l2, some e, pp)) :
    p.parseNext b lvl v =
      (none, l + l2, some (.transport ⟨FrameEncodingError, typ, e.message⟩), pp) := by
  have hbne : b ≠ [] := by rintro rfl; simp [varintParse] at h
  unfold FrameParser.parseNext
  rw [dif_neg hbne]
  split
  · rename_i a l3 e3 heq
    rw [h] at heq; cases heq
  · rename_i typ2 l3 heq
    rw [h] at heq
    injection heq with h1 h2
    injection h2 with h2 h3
    subst h1; subst h2
    rw [if_neg h0, hf]

theorem parseNext_step_ok (p pp : FrameParser) {b : List Nat} {typ l : Nat}
    (lvl : EncryptionLevel) (v : Version) {f : Option Frame} {l2 : Nat}
    (h : varintParse b = (typ, l, none)) (h0 : typ ≠ 0)
    (hf : p.ParseFrame (b.drop l) typ lvl v = (f, l2, none, pp)) :
    p.parseNext b lvl v = (f, l + l2, none, pp) := by
  have hbne : b ≠ [] := by rintro rfl; simp [varintParse] at h
  unfold FrameParser.parseNext
  rw [dif_neg hbne]
  split
  · rename_i a l3 e3 heq
    rw [h] at heq; cases heq
  · rename_i typ2 l3 heq
    rw [h] at heq
    injection heq with h1 h2
    injection h2 with h2 h3
    subst h1; subst h2
    rw [if_neg h0, hf]

theorem parseNext_to_ParseNext {p pp : FrameParser} {b : List Nat}
    {lvl : EncryptionLevel} {v : Version} {f : Option Frame} {l : Nat}
    {e : Option Err} (h : p.parseNext b lvl v = (f, l, e, pp)) :
    p.ParseNext b lvl v = (l, f, e, pp) := by
  simp [FrameParser.ParseNext, h]

attribute [simp] PingFrameType AckFrameType AckECNFrameType ResetStreamFrameType
  StopSendingFrameType CryptoFrameType NewTokenFrameType MaxDataFrameType
  MaxStreamDataFrameType BidiMaxStreamsFrameType UniMaxStreamsFrameType
  DataBlockedFrameType StreamDataBlockedFrameType BidiStreamBlockedFrameType
  UniStreamBlockedFrameType NewConnectionIDFrameType RetireConnectionIDFrameType
  PathChallengeFrameType PathResponseFrameType ConnectionCloseFrameType
  ApplicationCloseFrameType HandshakeDoneFrameType ResetStreamAtFrameType
  DatagramNoLengthFrameType DatagramWithLengthFrameType

theorem parseFrame_datagram_gated (p : FrameParser) (b : List Nat)
    (lvl : EncryptionLevel) (v : Version) (hd : p.supportsDatagrams = false) :
    p.ParseFrame b DatagramNoLengthFrameType lvl v =
      (none, 0, some .unknownFrameType, p) := by
  simp [FrameParser.ParseFrame, toRes, hd,
    show ((0x30 : Nat) &&& 0xf8 = 0x8) = False from by decide]

theorem parseFrame_datagram_with_length_gated (p : FrameParser) (b : List Nat)
    (lvl : EncryptionLevel) (v : Version) (hd : p.supportsDatagrams = false) :
    p.ParseFrame b DatagramWithLengthFrameType lvl v =
      (none, 0, some .unknownFrameType, p) := by
  simp [FrameParser.ParseFrame, toRes, hd,
    show ((0x31 : Nat) &&& 0xf8 = 0x8) = False from by decide]

theorem parseFrame_resetStreamAt_gated (p : FrameParser) (b : List Nat)
    (lvl : EncryptionLevel) (v : Version) (hr : p.supportsResetStreamAt = false) :
    p.ParseFrame b ResetStreamAtFrameType lvl v =
      (none, 0, some .unknownFrameType, p) := by
  simp [FrameParser.ParseFrame, toRes, hr,
    show ((0x24 : Nat) &&& 0xf8 = 0x8) = False from by decide]

theorem parseFrame_0x21_unknown (p : FrameParser) (b : List Nat)
    (lvl : EncryptionLevel) (v : Version) :
    p.ParseFrame b 0x21 lvl v = (none, 0, some .unknownFrameType, p) := by
  simp [FrameParser.ParseFrame, toRes,
    show ((0x21 : Nat) &&& 0xf8 = 0x8) = False from by decide]

/-- C1 (counterexample): on the one-byte filler-only region `[0]`,
`ParseNext` reports 1 byte consumed (with no frame and no error), not the
0 bytes the claim requires. -/
theorem c1_counterexample :
    (NewFrameParser true true).ParseNext [0] .oneRTT Version1 =
      (1, none, none, NewFrameParser true true) ∧ (1 : Nat) ≠ 0 := by
  refine ⟨?_, by decide⟩
  have h := parseNext_replicate (NewFrameParser true true) 1 .oneRTT Version1
  rw [List.replicate_one] at h
  exact parseNext_to_ParseNext h

/-- C1 (amended): for every region that is empty or consists only of
filler (PADDING, type code 0) bytes, `ParseNext` returns no frame and no
error, with bytes consumed equal to the number of filler bytes skipped
(0 exactly when the region is empty), and leaves the parser unchanged. -/
theorem c1_parseNext_filler_only (p : FrameParser) (k : Nat)
    (lvl : EncryptionLevel) (v : Version) :
    p.ParseNext (List.replicate k 0) lvl v = (k, none, none, p) :=
  parseNext_to_ParseNext (parseNext_replicate p k lvl v)

/-- C4: with the datagram extension disabled, `ParseNext` on a DATAGRAM
frame (wire code `0x30`) fails with the unknown-kind message inside a
`TransportError` whose carried type code is `0x30`; with the
reset-stream-at extension disabled, a RESET_STREAM_AT frame (code `0x24`)
likewise fails carrying `0x24`. The body bytes are never examined. -/
theorem c4_extension_gated_codes (p : FrameParser) (rest : List Nat)
    (lvl : EncryptionLevel) (v : Version) :
    (p.supportsDatagrams = false →
      p.ParseNext (0x30 :: rest) lvl v =
        (1, none,
          some (.transport ⟨FrameEncodingError, 0x30, .unknownFrameTypeMsg⟩), p)) ∧
    (p.supportsResetStreamAt = false →
      p.ParseNext (0x24 :: rest) lvl v =
        (1, none,
          some (.transport ⟨FrameEncodingError, 0x24, .unknownFrameTypeMsg⟩), p)) := by
  constructor
  · intro hd
    have hf := parseFrame_datagram_gated p rest lvl v hd
    have hstep := parseNext_step_err p p lvl v
      (varintParse_single 0x30 rest (by omega)) (by omega)
      (by simpa using hf)
    exact parseNext_to_ParseNext (by simpa [Err.message] using hstep)
  · intro hr
    have hf := parseFrame_resetStreamAt_gated p rest lvl v hr
    have hstep := parseNext_step_err p p lvl v
      (varintParse_single 0x24 rest (by omega)) (by omega)
      (by simpa using hf)
    exact parseNext_to_ParseNext (by simpa [Err.message] using hstep)

/-- C4 (witness): concrete instantiation — a parser with both extensions
disabled rejects `0x30`- and `0x24`-typed frames with the carried codes. -/
theorem c4_witness :
    (NewFrameParser false false).ParseNext [0x30, 1, 2, 3] .oneRTT Version1 =
      (1, none,
        some (.transport ⟨FrameEncodingError, 0x30, .unknownFrameTypeMsg⟩),
        NewFrameParser false false) ∧
    (NewFrameParser false false).ParseNext [0x24, 1, 2, 3] .oneRTT Version1 =
      (1, none,
        some (.transport ⟨FrameEncodingError, 0x24, .unknownFrameTypeMsg⟩),
        NewFrameParser false false) :=
  ⟨(c4_extension_gated_codes (NewFrameParser false false) [1, 2, 3] .oneRTT Version1).1 rfl,
   (c4_extension_gated_codes (NewFrameParser false false) [1, 2, 3] .oneRTT Version1).2 rfl⟩

/-- C6: for every byte region and version, `ParseLessCommonFrame` refuses
the three hot-path families — STREAM (codes `0x8`-`0xf`), ACK and
ACK-with-ECN, and both DATAGRAM codes — with the unknown-kind error, no
frame and zero bytes consumed; and with the reset-stream-at extension
disabled it refuses RESET_STREAM_AT the same way. -/
theorem c6_parseLessCommonFrame_refuses (p : FrameParser) (b : List Nat)
    (v : Version) (typ : Nat) :
    ((IsStreamFrameType typ = true ∨ typ = AckFrameType ∨ typ = AckECNFrameType ∨
        typ = DatagramNoLengthFrameType ∨ typ = DatagramWithLengthFrameType) →
      p.ParseLessCommonFrame typ b v = (none, 0, some .unknownFrameType)) ∧
    (p.supportsResetStreamAt = false →
      p.ParseLessCommonFrame ResetStreamAtFrameType b v =
        (none, 0, some .unknownFrameType)) := by
  constructor
  · rintro (hs | rfl | rfl | rfl | rfl)
    · simp only [IsStreamFrameType, decide_eq_true_eq] at hs
      obtain ⟨h8, h15⟩ := hs
      interval_cases typ <;> rfl
    · rfl
    · rfl
    · rfl
    · rfl
  · intro hr
    simp [FrameParser.ParseLessCommonFrame, hr]

/-- C6 (witness): concrete instantiation at a STREAM code (`0xd`), the ACK
code, a DATAGRAM code, and RESET_STREAM_AT on a parser with that extension
disabled. -/
theorem c6_witness :
    (NewFrameParser true false).ParseLessCommonFrame 0xd [1, 2, 3] Version1 =
      (none, 0, some .unknownFrameType) ∧
    (NewFrameParser true false).ParseLessCommonFrame AckFrameType [1, 2, 3] Version1 =
      (none, 0, some .unknownFrameType) ∧
    (NewFrameParser true false).ParseLessCommonFrame DatagramNoLengthFrameType
      [1, 2, 3] Version1 = (none, 0, some .unknownFrameType) ∧
    (NewFrameParser true false).ParseLessCommonFrame ResetStreamAtFrameType
      [1, 2, 3] Version1 = (none, 0, some .unknownFrameType) :=
  ⟨(c6_parseLessCommonFrame_refuses _ _ _ _).1 (Or.inl (by decide)),
   (c6_parseLessCommonFrame_refuses _ _ _ _).1 (Or.inr (Or.inl rfl)),
   (c6_parseLessCommonFrame_refuses _ _ _ _).1 (Or.inr (Or.inr (Or.inr (Or.inl rfl)))),
   (c6_parseLessCommonFrame_refuses (NewFrameParser true false) [1, 2, 3] Version1 0).2 rfl⟩

/-- C9: a freshly constructed parser has ack-delay exponent 0 (Go's zero
value — `NewFrameParser` never sets the field), not the protocol-default
exponent 3; consequently an ACK with delay field 8 decoded at 1-RTT before
any `SetAckDelayExponent` call is scaled by 2^0 (8 µs = 8000 ns), while at
the handshake level the protocol default 2^3 applies (64000 ns). -/
theorem c9_fresh_parser_exponent_zero :
    (∀ d r : Bool, (NewFrameParser d r).ackDelayExponent = 0) ∧
    DefaultAckDelayExponent ≠ 0 ∧
    ((NewFrameParser true true).ParseAckFrame AckFrameType [0x00, 0x08, 0x00, 0x00]
        .oneRTT Version1).1 =
      some { ackRanges := [(0, 0)], delayTime := 8000, ect0 := 0, ect1 := 0, ecnce := 0 } ∧
    ((NewFrameParser true true).ParseAckFrame AckFrameType [0x00, 0x08, 0x00, 0x00]
        .handshake Version1).1 =
      some { ackRanges := [(0, 0)], delayTime := 64000, ect0 := 0, ect1 := 0, ecnce := 0 } :=
  ⟨fun _ _ => rfl, by decide, by decide, by decide⟩

/-- C10: every `ParseAckFrame` call returns (a reference to) the parser's
own scratch ACK value — the frame component always equals the resulting
parser state's `ackFrame` field, and is present (`some`) even on error;
the call's outcome is independent of whatever the scratch held before
(the scratch is reset first, so prior contents are never preserved); and
on the concrete error path (empty input) the returned frame is the reset
scratch value rather than `none`, alongside the error. -/
theorem c10_ack_scratch_reuse :
    (∀ (p : FrameParser) (typ : FrameType) (data : List Nat)
        (lvl : EncryptionLevel) (v : Version),
      (p.ParseAckFrame typ data lvl v).1 =
        some (p.ParseAckFrame typ data lvl v).2.2.2.ackFrame) ∧
    (∀ (p : FrameParser) (a : AckFrame) (typ : FrameType) (data : List Nat)
        (lvl : EncryptionLevel) (v : Version),
      ({ p with ackFrame := a } : FrameParser).ParseAckFrame typ data lvl v =
        p.ParseAckFrame typ data lvl v) ∧
    (NewFrameParser true true).ParseAckFrame AckFrameType [] .oneRTT Version1 =
      (some { ackRanges := [], delayTime := 0, ect0 := 0, ect1 := 0, ecnce := 0 },
        0, some .eof, NewFrameParser true true) := by
  refine ⟨?_, ?_, by decide⟩
  · intro p typ data lvl v
    rcases h : parseAckFrameInto (p.ackFrame.Reset) data typ
      (if lvl ≠ EncryptionLevel.oneRTT then DefaultAckDelayExponent
       else p.ackDelayExponent) v with ⟨af, l, e⟩
    simp [FrameParser.ParseAckFrame, h]
  · intro p a typ data lvl v
    simp [FrameParser.ParseAckFrame, AckFrame.Reset]

/-- C5: `ParseType` skips leading filler (type code 0) bytes, counting
each in bytes-consumed: a region that is empty or all filler yields the
benign `io.EOF` signal (not a transport error) with bytes-consumed equal
to the filler bytes skipped; a filler prefix adds its length to whatever
the rest of the region yields; and when the next non-filler code is a
known kind admissible at the level, the result is that kind with
bytes-consumed equal to the filler bytes plus the type-code encoding
length. -/
theorem c5_parseType_filler_skipping :
    (∀ (p : FrameParser) (k : Nat) (lvl : EncryptionLevel),
      p.ParseType (List.replicate k 0) lvl = (0, k, some .eof)) ∧
    (∀ (p : FrameParser) (k : Nat) (b : List Nat) (lvl : EncryptionLevel),
      p.ParseType (List.replicate k 0 ++ b) lvl =
        ((p.ParseType b lvl).1, k + (p.ParseType b lvl).2.1, (p.ParseType b lvl).2.2)) ∧
    (∀ (p : FrameParser) (b : List Nat) (typ l : Nat) (lvl : EncryptionLevel),
      varintParse b = (typ, l, none) → typ ≠ 0 → NewFrameType typ = true →
      isAllowedAtEncLevel typ lvl = true → p.ParseType b lvl = (typ, l, none)) := by
  refine ⟨?_, parseType_padding_prefix, ?_⟩
  · intro p k lvl
    have h := parseType_padding_prefix p k [] lvl
    rw [List.append_nil] at h
    rw [h, parseType_nil]
    rfl
  · intro p b typ l lvl h h0 hk ha
    rw [parseType_nonfiller p lvl h h0, if_pos hk, if_pos ha]

/-- C5 (witness): a filler-only region of three bytes yields `io.EOF` with
3 bytes consumed; two filler bytes before a PING code yield the PING kind
with 3 bytes consumed and no error. -/
theorem c5_witness :
    (NewFrameParser true true).ParseType [0, 0, 0] .oneRTT = (0, 3, some .eof) ∧
    (NewFrameParser true true).ParseType [0, 0, 1] .oneRTT = (1, 3, none) := by
  constructor
  · exact c5_parseType_filler_skipping.1 (NewFrameParser true true) 3 .oneRTT
  · have h2 := c5_parseType_filler_skipping.2.1 (NewFrameParser true true) 2 [1] .oneRTT
    have h3 := c5_parseType_filler_skipping.2.2 (NewFrameParser true true) [1] 1 1 .oneRTT
      (by decide) (by decide) (by decide) (by decide)
    rw [show ([0, 0, 1] : List Nat) = List.replicate 2 0 ++ [1] from rfl, h2, h3]
    rfl

theorem parseFrame_unknown_code (p : FrameParser) (b : List Nat) {typ : Nat}
    (lvl : EncryptionLevel) (v : Version) (hk : NewFrameType typ = false)
    (hs : ¬typ % 256 &&& 0xf8 = 0x8) :
    p.ParseFrame b typ lvl v = (none, 0, some .unknownFrameType, p) := by
  have hnot : ¬(1 ≤ typ ∧ typ ≤ 0x1e ∨ typ = 0x24 ∨ typ = 0x30 ∨ typ = 0x31) := by
    simpa [NewFrameType] using hk
  simp [FrameParser.ParseFrame, toRes, hs,
    show typ ≠ 0x1 by omega, show typ ≠ 0x2 by omega, show typ ≠ 0x3 by omega,
    show typ ≠ 0x4 by omega, show typ ≠ 0x5 by omega, show typ ≠ 0x6 by omega,
    show typ ≠ 0x7 by omega, show typ ≠ 0x10 by omega, show typ ≠ 0x11 by omega,
    show typ ≠ 0x12 by omega, show typ ≠ 0x13 by omega, show typ ≠ 0x14 by omega,
    show typ ≠ 0x15 by omega, show typ ≠ 0x16 by omega, show typ ≠ 0x17 by omega,
    show typ ≠ 0x18 by omega, show typ ≠ 0x19 by omega, show typ ≠ 0x1a by omega,
    show typ ≠ 0x1b by omega, show typ ≠ 0x1c by omega, show typ ≠ 0x1d by omega,
    show typ ≠ 0x1e by omega, show typ ≠ 0x24 by omega, show typ ≠ 0x30 by omega,
    show typ ≠ 0x31 by omega]

/-- C2 (counterexample): `ParseType` on the two-byte encoding of the
unmapped code `0x42` returns a `TransportError` with the frame-encoding
error code whose structured frame-type field is 0 — not the identified
offending code `0x42`, which appears only in the message. -/
theorem c2_counterexample :
    (NewFrameParser true true).ParseType [0x40, 0x42] .oneRTT =
      (0, 2, some (.transport ⟨FrameEncodingError, 0, .unknownFrameTypeCode 0x42⟩)) ∧
    (0 : Nat) ≠ 0x42 := by
  refine ⟨?_, by decide⟩
  rw [parseType_nonfiller (NewFrameParser true true) .oneRTT
    (show varintParse [0x40, 0x42] = (0x42, 2, none) from by decide) (by decide)]
  decide

/-- C2 (amended): every decode failure yields a `TransportError` with
error code FrameEncodingError. `ParseNext` carries the identified raw wire
code in the structured frame-type field for each failure class — unknown
code, extension-disabled code, disallowed-at-level kind, malformed body.
`ParseType` also reports FrameEncodingError but identifies the offending
code only in its message (`unknown frame type: %d`); its structured
frame-type field stays 0. -/
theorem c2_decode_failures_structured :
    (∀ (p : FrameParser) (b : List Nat) (typ l : Nat) (lvl : EncryptionLevel)
        (v : Version),
      varintParse b = (typ, l, none) → typ ≠ 0 → NewFrameType typ = false →
      ¬typ % 256 &&& 0xf8 = 0x8 →
      p.ParseNext b lvl v =
        (l, none, some (.transport ⟨FrameEncodingError, typ, .unknownFrameTypeMsg⟩), p)) ∧
    (∀ (p : FrameParser) (rest : List Nat) (lvl : EncryptionLevel) (v : Version),
      p.supportsDatagrams = false →
      p.ParseNext (0x30 :: rest) lvl v =
        (1, none, some (.transport ⟨FrameEncodingError, 0x30, .unknownFrameTypeMsg⟩), p)) ∧
    ((NewFrameParser true true).ParseNext [0x11, 5] .oneRTT Version1 =
      (1, none, some (.transport ⟨FrameEncodingError, 0x11, .eofMsg⟩),
        NewFrameParser true true)) ∧
    ((NewFrameParser true true).ParseNext [0x1e] .initial Version1 =
      (1, none,
        some (.transport
          ⟨FrameEncodingError, 0x1e, .frameNotAllowed "HandshakeDoneFrame" .initial⟩),
        NewFrameParser true true)) ∧
    (∀ (p : FrameParser) (b : List Nat) (typ l : Nat) (lvl : EncryptionLevel),
      varintParse b = (typ, l, none) → typ ≠ 0 → NewFrameType typ = false →
      p.ParseType b lvl =
        (0, l, some (.transport ⟨FrameEncodingError, 0, .unknownFrameTypeCode typ⟩))) := by
  refine ⟨?_, ?_, ?_, ?_, ?_⟩
  · intro p b typ l lvl v h h0 hk hs
    exact parseNext_to_ParseNext (by
      simpa [Err.message] using parseNext_step_err p p lvl v h h0
        (parseFrame_unknown_code p (b.drop l) lvl v hk hs))
  · intro p rest lvl v hd
    exact parseNext_to_ParseNext (by
      simpa [Err.message] using parseNext_step_err p p lvl v
        (varintParse_single 0x30 rest (by omega)) (by omega)
        (by simpa using parseFrame_datagram_gated p rest lvl v hd))
  · exact parseNext_to_ParseNext (by
      simpa [Err.message] using parseNext_step_err
        (NewFrameParser true true) (NewFrameParser true true) .oneRTT Version1
        (varintParse_single 0x11 [5] (by omega)) (by omega)
        (show (NewFrameParser true true).ParseFrame (List.drop 1 [0x11, 5]) 0x11
            .oneRTT Version1 = (none, 0, some .eof, NewFrameParser true true) from
          by decide))
  · exact parseNext_to_ParseNext (by
      simpa [Err.message] using parseNext_step_err
        (NewFrameParser true true) (NewFrameParser true true) .initial Version1
        (varintParse_single 0x1e [] (by omega)) (by omega)
        (show (NewFrameParser true true).ParseFrame (List.drop 1 [0x1e]) 0x1e
            .initial Version1 =
            (none, 0, some (.notAllowed "HandshakeDoneFrame" .initial),
              NewFrameParser true true) from by decide))
  · intro p b typ l lvl h h0 hk
    rw [parseType_nonfiller p lvl h h0, if_neg (by simp [hk])]

/-- C2 (witness): concrete instantiation at the unmapped code `0x42` —
`ParseNext` carries `0x42` in the structured field, `ParseType` reports
the same error code with the structured field 0. -/
theorem c2_witness :
    (NewFrameParser true true).ParseNext [0x40, 0x42] .oneRTT Version1 =
      (2, none, some (.transport ⟨FrameEncodingError, 0x42, .unknownFrameTypeMsg⟩),
        NewFrameParser true true) ∧
    (NewFrameParser true true).ParseType [0x40, 0x42] .handshake =
      (0, 2, some (.transport ⟨FrameEncodingError, 0, .unknownFrameTypeCode 0x42⟩)) :=
  ⟨c2_decode_failures_structured.1 (NewFrameParser true true) [0x40, 0x42] 0x42 2
      .oneRTT Version1 (by decide) (by decide) (by decide) (by decide),
   c2_decode_failures_structured.2.2.2.2 (NewFrameParser true true) [0x40, 0x42] 0x42 2
      .handshake (by decide) (by decide) (by decide)⟩

/-- C7 (counterexample): MAX_STREAM_DATA (`0x11`) is a known kind that is
not admissible at the initial encryption level, yet `ParseNext` on a
`0x11` frame with a truncated (empty) body surfaces the body decoder's
end-of-input error — not the phase-violation error — because the
admissibility check runs only after the body decode, not before dispatch
as the claim states. -/
theorem c7_counterexample :
    isAllowedAtEncLevel 0x11 .initial = false ∧
    NewFrameType 0x11 = true ∧
    (NewFrameParser true true).ParseNext [0x11] .initial Version1 =
      (1, none, some (.transport ⟨FrameEncodingError, 0x11, .eofMsg⟩),
        NewFrameParser true true) ∧
    ErrMsg.eofMsg ≠ .typeNotAllowed 0x11 .initial ∧
    ErrMsg.eofMsg ≠ .frameNotAllowed "MaxStreamDataFrame" .initial := by
  refine ⟨by decide, by decide, ?_, by decide, by decide⟩
  exact parseNext_to_ParseNext (by
    simpa [Err.message] using parseNext_step_err
      (NewFrameParser true true) (NewFrameParser true true) .initial Version1
      (varintParse_single 0x11 [] (by omega)) (by omega)
      (show (NewFrameParser true true).ParseFrame (List.drop 1 [0x11]) 0x11
          .initial Version1 = (none, 0, some .eof, NewFrameParser true true) from
        by decide))

/-- C7 (amended): `ParseType` checks phase admissibility right after
classification and before returning, rejecting a known-but-disallowed kind
with a frame-encoding-error `TransportError` whose message is distinct
from unknown-kind; `ParseFrame` — and hence the composed `ParseNext`
path — dispatches the body decode first and checks admissibility only
after a successful decode, as shown here for HANDSHAKE_DONE (whose empty
body always decodes): the rejection then carries the same error code and a
distinct phase-violation message naming the decoded frame. -/
theorem parseFrame_handshakeDone_disallowed (p : FrameParser) (b : List Nat)
    (lvl : EncryptionLevel) (v : Version)
    (hna : isAllowedAtEncLevel HandshakeDoneFrameType lvl = false) :
    p.ParseFrame b HandshakeDoneFrameType lvl v =
      (none, 0, some (.notAllowed "HandshakeDoneFrame" lvl), p) := by
  have hna' : isAllowedAtEncLevel 30 lvl = false := hna
  simp [FrameParser.ParseFrame, toRes, hna', optionTypeName, Frame.typeName,
    show ((0x1e : Nat) &&& 0xf8 = 0x8) = False from by decide]

theorem c7_phase_admissibility :
    (∀ (p : FrameParser) (b : List Nat) (typ l : Nat) (lvl : EncryptionLevel),
      varintParse b = (typ, l, none) → typ ≠ 0 → NewFrameType typ = true →
      isAllowedAtEncLevel typ lvl = false →
      p.ParseType b lvl =
        (0, l, some (.transport ⟨FrameEncodingError, 0, .typeNotAllowed typ lvl⟩))) ∧
    (∀ (p : FrameParser) (b : List Nat) (lvl : EncryptionLevel) (v : Version),
      isAllowedAtEncLevel HandshakeDoneFrameType lvl = false →
      p.ParseFrame b HandshakeDoneFrameType lvl v =
        (none, 0, some (.notAllowed "HandshakeDoneFrame" lvl), p)) ∧
    (∀ (p : FrameParser) (rest : List Nat) (lvl : EncryptionLevel) (v : Version),
      isAllowedAtEncLevel HandshakeDoneFrameType lvl = false →
      p.ParseNext (0x1e :: rest) lvl v =
        (1, none,
          some (.transport ⟨FrameEncodingError, 0x1e, .frameNotAllowed "HandshakeDoneFrame" lvl⟩),
          p)) ∧
    (∀ (typ : Nat) (lvl : EncryptionLevel) (name : String),
      ErrMsg.typeNotAllowed typ lvl ≠ .unknownFrameTypeCode typ ∧
      ErrMsg.frameNotAllowed name lvl ≠ .unknownFrameTypeMsg) := by
  refine ⟨?_, parseFrame_handshakeDone_disallowed, ?_,
    by intro typ lvl name; exact ⟨by simp, by simp⟩⟩
  · intro p b typ l lvl h h0 hk hna
    rw [parseType_nonfiller p lvl h h0, if_pos hk, if_neg (by simp [hna])]
  · intro p rest lvl v hna
    exact parseNext_to_ParseNext (by
      simpa [Err.message] using parseNext_step_err p p lvl v
        (varintParse_single 0x1e rest (by omega)) (by omega)
        (by simpa using parseFrame_handshakeDone_disallowed p rest lvl v hna))

/-- C7 (witness): concrete instantiation — HANDSHAKE_DONE at the initial
level is rejected by `ParseType` before any decode and by `ParseNext`
after its (empty) body decode, both with the frame-encoding error code. -/
theorem c7_witness :
    (NewFrameParser true true).ParseType [0x1e] .initial =
      (0, 1, some (.transport ⟨FrameEncodingError, 0, .typeNotAllowed 0x1e .initial⟩)) ∧
    (NewFrameParser true true).ParseNext [0x1e, 9] .initial Version1 =
      (1, none,
        some (.transport
          ⟨FrameEncodingError, 0x1e, .frameNotAllowed "HandshakeDoneFrame" .initial⟩),
        NewFrameParser true true) :=
  ⟨c7_phase_admissibility.1 (NewFrameParser true true) [0x1e] 0x1e 1 .initial
      (by decide) (by decide) (by decide) (by decide),
   c7_phase_admissibility.2.2.1 (NewFrameParser true true) [9] .initial Version1 (by decide)⟩

/-- C8 (counterexample): on a parser with both extensions disabled,
`ParseType` — a public operation — still classifies the gated DATAGRAM
code `0x30` as a known kind and succeeds, while a genuinely unmapped
one-byte code (`0x21`) fails with an unknown-code transport error: the two
codes produce different results, so the gated code is observationally
distinguishable from an unknown one. -/
theorem c8_counterexample :
    (NewFrameParser false false).ParseType [0x30] .oneRTT = (0x30, 1, none) ∧
    (NewFrameParser false false).ParseType [0x21] .oneRTT =
      (0, 1, some (.transport ⟨FrameEncodingError, 0, .unknownFrameTypeCode 0x21⟩)) ∧
    ((0x30 : FrameType), 1, (none : Option Err)) ≠
      ((0 : FrameType), 1, some (Err.transport ⟨FrameEncodingError, 0, .unknownFrameTypeCode 0x21⟩)) := by
  refine ⟨?_, ?_, by decide⟩
  · rw [parseType_nonfiller (NewFrameParser false false) .oneRTT
      (varintParse_single 0x30 [] (by omega)) (by omega)]
    decide
  · rw [parseType_nonfiller (NewFrameParser false false) .oneRTT
      (varintParse_single 0x21 [] (by omega)) (by omega)]
    decide

/-- C8 (amended): with the extensions disabled, the gated codes behave
exactly like a genuinely unmapped code (`0x21`) in the frame-decoding
operations — `ParseFrame` and `ParseLessCommonFrame` produce identical
results — but `ParseType` still classifies them as known kinds, so the
indistinguishability does not extend to every public operation. -/
theorem c8_gated_codes_like_unknown (p : FrameParser) (b : List Nat)
    (lvl : EncryptionLevel) (v : Version) :
    (p.supportsDatagrams = false →
      p.ParseFrame b DatagramNoLengthFrameType lvl v = p.ParseFrame b 0x21 lvl v ∧
      p.ParseFrame b DatagramWithLengthFrameType lvl v = p.ParseFrame b 0x21 lvl v) ∧
    (p.supportsResetStreamAt = false →
      p.ParseFrame b ResetStreamAtFrameType lvl v = p.ParseFrame b 0x21 lvl v ∧
      p.ParseLessCommonFrame ResetStreamAtFrameType b v =
        p.ParseLessCommonFrame 0x21 b v) ∧
    (∀ lvl2, p.ParseType [0x30] lvl2 ≠ p.ParseType [0x21] lvl2) := by
  refine ⟨?_, ?_, ?_⟩
  · intro hd
    rw [parseFrame_datagram_gated p b lvl v hd,
      parseFrame_datagram_with_length_gated p b lvl v hd,
      parseFrame_0x21_unknown p b lvl v]
    exact ⟨rfl, rfl⟩
  · intro hr
    constructor
    · rw [parseFrame_resetStreamAt_gated p b lvl v hr, parseFrame_0x21_unknown p b lvl v]
    · have h1 : p.ParseLessCommonFrame ResetStreamAtFrameType b v =
          (none, 0, some .unknownFrameType) := by
        simp [FrameParser.ParseLessCommonFrame, hr]
      rw [h1]; rfl
  · intro lvl2
    rw [parseType_nonfiller p lvl2 (varintParse_single 0x30 [] (by omega)) (by omega),
      parseType_nonfiller p lvl2 (varintParse_single 0x21 [] (by omega)) (by omega)]
    cases lvl2 <;> decide

/-- C8 (witness): concrete instantiation on a parser with both extensions
disabled. -/
theorem c8_witness :
    (NewFrameParser false false).ParseFrame [1, 2] DatagramNoLengthFrameType
        .oneRTT Version1 =
      (NewFrameParser false false).ParseFrame [1, 2] 0x21 .oneRTT Version1 ∧
    (NewFrameParser false false).ParseFrame [1, 2] ResetStreamAtFrameType
        .oneRTT Version1 =
      (NewFrameParser false false).ParseFrame [1, 2] 0x21 .oneRTT Version1 ∧
    (NewFrameParser false false).ParseLessCommonFrame ResetStreamAtFrameType
        [1, 2] Version1 =
      (NewFrameParser false false).ParseLessCommonFrame 0x21 [1, 2] Version1 :=
  ⟨((c8_gated_codes_like_unknown (NewFrameParser false false) [1, 2] .oneRTT Version1).1
      rfl).1,
   ((c8_gated_codes_like_unknown (NewFrameParser false false) [1, 2] .oneRTT Version1).2.1
      rfl).1,
   ((c8_gated_codes_like_unknown (NewFrameParser false false) [1, 2] .oneRTT Version1).2.1
      rfl).2⟩

/-- C3: the ack-delay exponent handed to the ACK decoder is the parser's
configured exponent exactly at the 1-RTT encryption level and the protocol
default at every other level — so away from 1-RTT the configured value is
irrelevant to `ParseAckFrame` and to the ACK arm of `ParseFrame` — and
consequently an ACK encoding a 1 s delay under the default exponent,
decoded by a parser configured with exponent default+2, yields a 4 s delay
at 1-RTT and the unscaled 1 s at the handshake level (through both entry
points). -/
theorem c3_ack_delay_exponent_selection :
    (∀ (p : FrameParser) (typ : FrameType) (data : List Nat)
        (lvl : EncryptionLevel) (v : Version),
      (p.ParseAckFrame typ data lvl v).1 =
        some (parseAckFrameInto (p.ackFrame.Reset) data typ
          (if lvl = EncryptionLevel.oneRTT then p.ackDelayExponent
           else DefaultAckDelayExponent) v).1 ∧
      (p.ParseAckFrame typ data lvl v).2.1 =
        (parseAckFrameInto (p.ackFrame.Reset) data typ
          (if lvl = EncryptionLevel.oneRTT then p.ackDelayExponent
           else DefaultAckDelayExponent) v).2.1 ∧
      (p.ParseAckFrame typ data lvl v).2.2.1 =
        (parseAckFrameInto (p.ackFrame.Reset) data typ
          (if lvl = EncryptionLevel.oneRTT then p.ackDelayExponent
           else DefaultAckDelayExponent) v).2.2) ∧
    (∀ (p : FrameParser) (x : Nat) (typ : FrameType) (data : List Nat)
        (lvl : EncryptionLevel) (v : Version), lvl ≠ EncryptionLevel.oneRTT →
      ((p.SetAckDelayExponent x).ParseAckFrame typ data lvl v).1 =
        (p.ParseAckFrame typ data lvl v).1 ∧
      ((p.SetAckDelayExponent x).ParseAckFrame typ data lvl v).2.1 =
        (p.ParseAckFrame typ data lvl v).2.1 ∧
      ((p.SetAckDelayExponent x).ParseAckFrame typ data lvl v).2.2.1 =
        (p.ParseAckFrame typ data lvl v).2.2.1) ∧
    (∀ (p : FrameParser) (x : Nat) (data : List Nat)
        (lvl : EncryptionLevel) (v : Version), lvl ≠ EncryptionLevel.oneRTT →
      ((p.SetAckDelayExponent x).ParseFrame data AckFrameType lvl v).1 =
        (p.ParseFrame data AckFrameType lvl v).1 ∧
      ((p.SetAckDelayExponent x).ParseFrame data AckFrameType lvl v).2.1 =
        (p.ParseFrame data AckFrameType lvl v).2.1 ∧
      ((p.SetAckDelayExponent x).ParseFrame data AckFrameType lvl v).2.2.1 =
        (p.ParseFrame data AckFrameType lvl v).2.2.1) ∧
    (((NewFrameParser true true).SetAckDelayExponent (DefaultAckDelayExponent + 2)).ParseAckFrame
        AckFrameType [0x01, 0x80, 0x01, 0xE8, 0x48, 0x00, 0x00] .oneRTT Version1).1 =
      some { ackRanges := [(1, 1)], delayTime := 4000000000,
             ect0 := 0, ect1 := 0, ecnce := 0 } ∧
    (((NewFrameParser true true).SetAckDelayExponent (DefaultAckDelayExponent + 2)).ParseAckFrame
        AckFrameType [0x01, 0x80, 0x01, 0xE8, 0x48, 0x00, 0x00] .handshake Version1).1 =
      some { ackRanges := [(1, 1)], delayTime := 1000000000,
             ect0 := 0, ect1 := 0, ecnce := 0 } ∧
    (((NewFrameParser true true).SetAckDelayExponent (DefaultAckDelayExponent + 2)).ParseFrame
        [0x01, 0x80, 0x01, 0xE8, 0x48, 0x00, 0x00] AckFrameType .oneRTT Version1).1 =
      some (.ack { ackRanges := [(1, 1)], delayTime := 4000000000,
                   ect0 := 0, ect1 := 0, ecnce := 0 }) ∧
    (((NewFrameParser true true).SetAckDelayExponent (DefaultAckDelayExponent + 2)).ParseFrame
        [0x01, 0x80, 0x01, 0xE8, 0x48, 0x00, 0x00] AckFrameType .handshake Version1).1 =
      some (.ack { ackRanges := [(1, 1)], delayTime := 1000000000,
                   ect0 := 0, ect1 := 0, ecnce := 0 }) := by
  refine ⟨?_, ?_, ?_, by decide, by decide, by decide, by decide⟩
  · intro p typ data lvl v
    by_cases hl : lvl = EncryptionLevel.oneRTT <;>
      simp [FrameParser.ParseAckFrame, hl]
  · intro p x typ data lvl v h
    simp [FrameParser.ParseAckFrame, FrameParser.SetAckDelayExponent, h]
  · intro p x data lvl v h
    simp [FrameParser.ParseFrame, FrameParser.SetAckDelayExponent, h,
      show ((0x2 : Nat) &&& 0xf8 = 0x8) = False from by decide]
    rcases hpa : parseAckFrameInto p.ackFrame.Reset data 2 DefaultAckDelayExponent v
      with ⟨af, l, e⟩
    simp [hpa]
    cases e <;> by_cases hc : isAllowedAtEncLevel 2 lvl = false <;> simp [hc]

/-- C3 (witness): concrete instantiation of the off-1-RTT parts at the
handshake level. -/
theorem c3_witness :
    (((NewFrameParser true true).SetAckDelayExponent 9).ParseAckFrame AckFrameType
        [0x00, 0x08, 0x00, 0x00] .handshake Version1).1 =
      ((NewFrameParser true true).ParseAckFrame AckFrameType
        [0x00, 0x08, 0x00, 0x00] .handshake Version1).1 ∧
    (((NewFrameParser true true).SetAckDelayExponent 9).ParseFrame
        [0x00, 0x08, 0x00, 0x00] AckFrameType .handshake Version1).1 =
      ((NewFrameParser true true).ParseFrame
        [0x00, 0x08, 0x00, 0x00] AckFrameType .handshake Version1).1 :=
  ⟨(c3_ack_delay_exponent_selection.2.1 (NewFrameParser true true) 9 AckFrameType
      [0x00, 0x08, 0x00, 0x00] .handshake Version1 (by decide)).1,
   (c3_ack_delay_exponent_selection.2.2.1 (NewFrameParser true true) 9
      [0x00, 0x08, 0x00, 0x00] .handshake Version1 (by decide)).1⟩
